import Mathlib

/-!
Formal model of the SmartSalesForecast feature pipeline and model-lifecycle
subsystem (app/services/data_service.py, app/services/ml_service.py,
app/api/routes.py).

Conventions of the shallow embedding:
* numeric cell values (quantity, unit_price, discount, feature values,
  predictions) are rationals; the source's float comparisons
  `abs(x - mean) > 3 * std` with `std = sqrt(var)` are embedded in exact
  arithmetic as `(x - mean)^2 > 9 * var`, which is equivalent for `var ≥ 0`;
* a pandas one-row DataFrame / feature dict is an association list from
  column name to value, in the dict's insertion order;
* objects owned by external libraries (the fitted sklearn pipeline, the
  metrics dict, datetime values) are opaque type parameters `P`, `M`, `D`:
  the lifecycle logic never inspects them, it only stores and moves them;
* fallible steps return `Option`/`Except` or a success flag, matching the
  source's `None` returns and `try/except` blocks.
-/

attribute [local semireducible] Rat.add Rat.mul Rat.sub Rat.inv

namespace SmartSalesForecast

/-- A feature vector: one named row of numeric values (a pandas one-row
DataFrame or the feature dict of `prepare_prediction_features`), as an
association list in column order. -/
abbrev FeatureVector := List (String × ℚ)

/-- The reconciliation performed by `SalesForecastModel.predict`
(ml_service.py lines 144-155) before running the fitted pipeline:

* `X = X[[col for col in X.columns if col in self.features]]` — drop every
  input column whose name is not in the trained schema;
* `for feature in self.features: if feature not in X.columns: X[feature] = 0`
  — append a zero column for every schema name absent from the input;
* `X = X[self.features]` — reorder the columns to the schema's exact order
  (embedded as a lookup of each schema name in the padded table). -/
def reconcile (X : FeatureVector) (features : List String) : FeatureVector :=
  let X1 := X.filter (fun p => decide (p.1 ∈ features))
  let X2 := X1 ++ (features.filter (fun f => !decide (f ∈ X1.map Prod.fst))).map
      (fun f => (f, (0 : ℚ)))
  features.map (fun f => (f, ((X2.lookup f).getD 0)))

/-- In-memory state of a `SalesForecastModel` instance
(ml_service.py `__init__`, lines 27-33): the fitted pipeline, the feature
schema, the metrics dict, the training timestamp and the model-type tag.
`P`, `M`, `D` are the external pipeline / metrics / datetime types. The
constructor state is `model = features = metrics = trained_date = None`,
`model_type = "decision_tree"`. -/
structure ModelState (P M D : Type) where
  model : Option P
  features : Option (List String)
  metrics : Option M
  trained_date : Option D
  model_type : String
deriving DecidableEq

/-- The persisted artifact written by `SalesForecastModel.save`
(ml_service.py lines 188-200): a joblib dict with keys `model`, `features`,
`metrics`, `trained_date`, `model_type`. An outer `none` means the key is
absent from the dict (a structurally incomplete artifact); the inner
`Option` on the first four fields is the Python value itself, which may be
`None` when an untrained model was saved. `model_type` is read through
`data.get('model_type', 'decision_tree')`, so only its key-presence matters. -/
structure Artifact (P M D : Type) where
  model : Option (Option P)
  features : Option (Option (List String))
  metrics : Option (Option M)
  trained_date : Option (Option D)
  model_type : Option String
deriving DecidableEq

/-- Embeds `SalesForecastModel.save` (ml_service.py lines 188-200): serializes the
five current attributes as one dict. (The `os.makedirs` call and the file
location are outside the model.) -/
def save {P M D : Type} (s : ModelState P M D) : Artifact P M D :=
  { model := some s.model
    features := some s.features
    metrics := some s.metrics
    trained_date := some s.trained_date
    model_type := some s.model_type }

/-- Embeds `SalesForecastModel.load` (ml_service.py lines 202-216): reads the dict
and assigns `self.model`, `self.features`, `self.metrics`,
`self.trained_date` in that order; a missing key raises `KeyError`, which the
surrounding `try/except` turns into a `False` return — but the assignments
already executed stay in place. `model_type` is read with
`data.get('model_type', 'decision_tree')`, so its absence does not fail.
Returns the success flag and the resulting state. -/
def load {P M D : Type} (a : Artifact P M D) (s : ModelState P M D) :
    Bool × ModelState P M D :=
  match a.model with
  | none => (false, s)
  | some m =>
    let s1 := { s with model := m }
    match a.features with
    | none => (false, s1)
    | some f =>
      let s2 := { s1 with features := f }
      match a.metrics with
      | none => (false, s2)
      | some mt =>
        let s3 := { s2 with metrics := mt }
        match a.trained_date with
        | none => (false, s3)
        | some d =>
          (true, { s3 with trained_date := d,
                           model_type := a.model_type.getD "decision_tree" })

/-- The two error returns of `SalesForecastModel.train`: the dicts
`{"error": "Eğitim için yeterli veri yok"}` (insufficient data, line 58) and
`{"error": "Bilinmeyen model tipi: ..."}` (unknown model type, line 86),
which the spec's taxonomy names `InsufficientDataError` and
`UnknownModelTypeError`. -/
inductive TrainError where
  | insufficientData
  | unknownModelType
deriving DecidableEq

/-- The prepared training table `(X, y)` returned by
`prepare_training_data`: the encoded feature column names
(`X.columns.tolist()`) and the row count `len(X)`. The numeric content is
only ever passed to the external sklearn pipeline, so it is not modelled
here. -/
structure TrainData where
  columns : List String
  nrows : Nat
deriving DecidableEq

/-- The model types accepted by `SalesForecastModel.train`
(ml_service.py lines 77-84). -/
def valid_model_types : List String := ["decision_tree", "linear", "knn", "logistic"]

/-- Embeds `SalesForecastModel.train` (ml_service.py lines 35-126), with the
external sklearn work abstracted: `fit` stands for building and fitting the
scaler+regressor pipeline (lines 77-96) and `evaluate` for computing the
metrics dict from the fitted pipeline and the split (lines 98-118); `now` is
`datetime.now()`. `registry` is the persisted artifact at `MODEL_PATH`
(`none` = no file yet). `data` is `prepare_training_data`'s result (`none`
when it returned `(None, None)`). Returns the method's return value (metrics
or error dict), the resulting in-memory state, and the resulting registry
content. Key control flow, in source order:
* line 49: `self.model_type = model_type` before any validation;
* lines 57-58: insufficient data check (`X is None ... or len(X) < 10`);
* line 61: `self.features = X.columns.tolist()` before the model-type check;
* lines 77-86: model-type dispatch, unknown type returns the error dict;
* lines 95-121: fit, metrics, `self.trained_date = datetime.now()`;
* line 124: `self.save()` — train persists the artifact itself. -/
def train {P M D : Type} (fit : String → TrainData → P) (evaluate : String → TrainData → M)
    (now : D) (s : ModelState P M D) (registry : Option (Artifact P M D))
    (data : Option TrainData) (model_type : String) :
    (M ⊕ TrainError) × ModelState P M D × Option (Artifact P M D) :=
  let s1 := { s with model_type := model_type }
  match data with
  | none => (Sum.inr TrainError.insufficientData, s1, registry)
  | some d =>
    if d.nrows < 10 then
      (Sum.inr TrainError.insufficientData, s1, registry)
    else
      let s2 := { s1 with features := some d.columns }
      if valid_model_types.contains model_type then
        let p := fit model_type d
        let m := evaluate model_type d
        let s3 := { s2 with model := some p, metrics := some m, trained_date := some now }
        (Sum.inl m, s3, some (save s3))
      else
        (Sum.inr TrainError.unknownModelType, s2, registry)

/-- A concrete prior state used in the C3/C6/C9 scenarios: a previously
loaded decision-tree model (all external objects instantiated at `Nat`). -/
def priorState : ModelState Nat Nat Nat :=
  { model := some 7
    features := some ["old_a", "old_b"]
    metrics := some 1
    trained_date := some 2
    model_type := "decision_tree" }

/-- A concrete prepared dataset with 12 rows and two feature columns. -/
def sampleData : TrainData := { columns := ["a", "b"], nrows := 12 }

/-- A structurally incomplete artifact: the `model` key is present but
`features`, `metrics` and `trained_date` are missing. -/
def corruptArtifact : Artifact Nat Nat Nat :=
  { model := some (some 9)
    features := none
    metrics := none
    trained_date := none
    model_type := none }

/-- Embeds `get_sales_data` (data_service.py lines 19-141), control-flow view.
`fetch` abstracts `db.execute(text(query), params).fetchall()`
(`Except.error` = the query raised: data source unreachable); `clean`
abstracts the row-cleaning body, lines 83-137 (its per-column arithmetic is
embedded in detail as `cleanColumn` below). The surrounding
`try/except Exception` returns an *empty* DataFrame on any error
(lines 139-141), and an empty fetch also returns early (lines 77-79). -/
def get_sales_data {Row : Type} (clean : List Row → List Row)
    (fetch : Except Unit (List Row)) : List Row :=
  match fetch with
  | Except.error _ => []
  | Except.ok rows => if rows.isEmpty then [] else clean rows

/-- Embeds `get_monthly_sales_summary` (data_service.py lines 144-174): empty sales
give an empty summary (lines 151-152); otherwise `aggregate` abstracts the
groupby/rename of lines 154-174. -/
def get_monthly_sales_summary {Row Agg : Type} (clean : List Row → List Row)
    (aggregate : List Row → List Agg) (fetch : Except Unit (List Row)) : List Agg :=
  let sales := get_sales_data clean fetch
  if sales.isEmpty then [] else aggregate sales

/-- Embeds `prepare_training_data` (data_service.py lines 207-269), control-flow
view: an empty monthly summary returns `(None, None)` (lines 214-215);
otherwise `encode` abstracts the fill/outlier/one-hot/feature-selection body
(lines 219-262; its column-name computation is embedded in detail as
`feature_cols` below). -/
def prepare_training_data {Row Agg : Type} (clean : List Row → List Row)
    (aggregate : List Row → List Agg) (encode : List Agg → TrainData)
    (fetch : Except Unit (List Row)) : Option TrainData :=
  let monthly := get_monthly_sales_summary clean aggregate fetch
  if monthly.isEmpty then none else some (encode monthly)

/-- Python's `round` (banker's rounding, round half to even), restricted to
exact rationals. -/
def pyRound (x : ℚ) : ℤ :=
  let f := ⌊x⌋
  let r := x - f
  if r < 1/2 then f
  else if 1/2 < r then f + 1
  else if f % 2 = 0 then f else f + 1

/-- The confidence computation of `predict_sales` (routes.py lines 262-266):
`confidence = 0.8; if model.metrics and 'r2_score' in model.metrics:
confidence = max(0.5, min(0.95, model.metrics['r2_score']))`. The metrics
dict is an association list; `none` / empty dict are falsy. -/
def confidence (metrics : Option (List (String × ℚ))) : ℚ :=
  match metrics with
  | none => 8 / 10
  | some d =>
    if d.isEmpty then 8 / 10
    else
      match d.lookup "r2_score" with
      | some r => max (1 / 2) (min (19 / 20) r)
      | none => 8 / 10

/-- The output clamp of `predict_sales` (routes.py lines 272-273):
`predicted_value = max(0, float(prediction[0]));
rounded_prediction = round(predicted_value)`. -/
def predicted_quantity (raw : ℚ) : ℤ :=
  pyRound (max 0 raw)

/-- Python `s.startswith(pre)` on character lists (used instead of core
`String.startsWith` so that proofs can reason on `String.data`). -/
def hasPre (pre s : String) : Bool :=
  s.data.take pre.data.length == pre.data

/-- The five base numeric feature columns of `prepare_training_data`
(data_service.py lines 256-258). -/
def base_feature_names : List String :=
  ["product_id", "year", "month", "total_revenue", "avg_price"]

/-- Column names of the monthly summary table after one-hot encoding
(data_service.py lines 244-253): the groupby/rename yields
`[product_id, category_id, supplier_id, year, month, total_quantity,
total_revenue, avg_price]`; each one-hot pass drops the categorical column
and appends one `prefix_value` indicator per distinct observed value.
`cats`/`sups` are the distinct `category_id`/`supplier_id` string values of
the batch being encoded. -/
def encoded_columns (cats sups : List String) : List String :=
  ["product_id", "year", "month", "total_quantity", "total_revenue", "avg_price"]
    ++ cats.map (fun c => "category_" ++ c) ++ sups.map (fun u => "supplier_" ++ u)

/-- Embeds `feature_cols` (data_service.py lines 256-259): the base numeric columns
plus every encoded column whose name satisfies
`col.startswith(('category_', 'supplier_'))`. The trained schema
`self.features = X.columns.tolist()` is exactly this list. -/
def feature_cols (cats sups : List String) : List String :=
  base_feature_names ++
    (encoded_columns cats sups).filter
      (fun c => hasPre "category_" c || hasPre "supplier_" c)

/-- The features dict built by `prepare_prediction_features`
(data_service.py lines 332-359), in insertion order: the seven base entries,
one `category_*` indicator per known category (1 for the product's own
category), one `supplier_*` indicator per known supplier, and — only when a
customer_id was supplied and resolved — the entry
`customer_country = hash(country) % 10`. Identifier values are abstracted as
the rationals `pid`, `cid`, `sid`; `prodCat`/`prodSup` are the string forms
of the product's category and supplier ids used in indicator names. -/
def prediction_features (pid y mo ap tr cid sid : ℚ) (cats sups : List String)
    (prodCat prodSup : String) (cc : Option ℚ) : FeatureVector :=
  [("product_id", pid), ("year", y), ("month", mo), ("avg_price", ap),
   ("total_revenue", tr), ("category_id", cid), ("supplier_id", sid)]
    ++ cats.map (fun c => ("category_" ++ c, if c = prodCat then (1 : ℚ) else 0))
    ++ sups.map (fun u => ("supplier_" ++ u, if u = prodSup then (1 : ℚ) else 0))
    ++ (cc.map (fun v => ("customer_country", v))).toList

theorem lookup_filter_of_mem {X : FeatureVector} {features : List String} {f : String}
    (hf : f ∈ features) :
    (X.filter (fun p => decide (p.1 ∈ features))).lookup f = X.lookup f := by
  induction X with
  | nil => rfl
  | cons p t ih =>
    obtain ⟨k, v⟩ := p
    by_cases hk : k ∈ features
    · simp only [List.filter_cons, decide_eq_true_eq, hk, if_true, List.lookup_cons]
      cases h : (f == k) <;> simp [ih]
    · have hfk : (f == k) = false := by
        simp only [beq_eq_false_iff_ne, ne_eq]
        rintro rfl; exact hk hf
      simp only [List.filter_cons, decide_eq_true_eq, hk, if_false, List.lookup_cons, hfk]
      exact ih

theorem lookup_map_pair {fs : List String} {f : String} (val : String → ℚ) (hf : f ∈ fs) :
    (fs.map (fun g => (g, val g))).lookup f = some (val f) := by
  induction fs with
  | nil => cases hf
  | cons g t ih =>
    rcases List.mem_cons.1 hf with rfl | hft
    · simp [List.lookup_cons]
    · cases h : (f == g)
      · simpa [List.lookup_cons, h] using ih hft
      · simp only [beq_iff_eq] at h
        subst h
        simp [List.lookup_cons]

theorem lookup_not_mem_keys {l : List (String × ℚ)} {f : String}
    (h : f ∉ l.map Prod.fst) : l.lookup f = none := by
  rw [List.lookup_eq_none_iff]
  intro p hp
  simp only [bne_iff_ne, ne_eq]
  rintro rfl
  exact h (List.mem_map.2 ⟨p, hp, rfl⟩)

/-- The padded table built inside `reconcile` resolves every schema name to
the input's value when present, and to `0` otherwise. -/
theorem reconcile_lookup_aux (X : FeatureVector) (features : List String) {f : String}
    (hf : f ∈ features) :
    ((X.filter (fun p => decide (p.1 ∈ features)) ++
        (features.filter
            (fun g => !decide (g ∈ (X.filter (fun p => decide (p.1 ∈ features))).map Prod.fst))).map
          (fun g => (g, (0 : ℚ)))).lookup f) = some ((X.lookup f).getD 0) := by
  set X1 := X.filter (fun p => decide (p.1 ∈ features)) with hX1
  rw [List.lookup_append, lookup_filter_of_mem hf]
  cases hx : X.lookup f with
  | some v => rfl
  | none =>
    have hkeys : f ∉ X1.map Prod.fst := by
      intro hmem
      rcases List.mem_map.1 hmem with ⟨p, hp, hpf⟩
      have hpX : p ∈ X := (List.mem_filter.1 hp).1
      have hne := List.lookup_eq_none_iff.1 hx p hpX
      rw [bne_iff_ne] at hne
      exact hne hpf.symm
    have hmemf : f ∈ features.filter
        (fun g => !decide (g ∈ X1.map Prod.fst)) :=
      List.mem_filter.2 ⟨hf, by simpa using hkeys⟩
    simpa using lookup_map_pair (fun _ => (0 : ℚ)) hmemf

/-- Rewrites `reconcile` as one closed formula: one column per schema entry, in schema
order, holding the input's value when present and `0` otherwise. -/
theorem reconcile_eq_map (X : FeatureVector) (features : List String) :
    reconcile X features = features.map (fun f => (f, ((X.lookup f).getD 0))) := by
  unfold reconcile
  refine List.map_congr_left ?_
  intro f hf
  rw [reconcile_lookup_aux X features hf]
  simp

/-- Claim C1: for every feature vector and trained schema, reconciliation is
total and deterministic (it is a Lean function); the reconciled vector has
exactly one column per schema name, in exactly the schema's order; every
schema name present in the input keeps the input's value and every schema
name absent from the input gets `0`; every input column whose name is not in
the schema is dropped. -/
theorem reconcile_total_deterministic (X : FeatureVector) (features : List String)
    (hX : (X.map Prod.fst).Nodup) :
    (reconcile X features).map Prod.fst = features ∧
    (reconcile X features).length = features.length ∧
    (∀ f ∈ features, (reconcile X features).lookup f = some ((X.lookup f).getD 0)) ∧
    (∀ p ∈ reconcile X features, p.1 ∈ features) := by
  rw [reconcile_eq_map]
  refine ⟨?_, by simp, ?_, ?_⟩
  · simp [Function.comp_def]
  · intro f hf
    exact lookup_map_pair (fun g => ((X.lookup g).getD 0)) hf
  · intro p hp
    rcases List.mem_map.1 hp with ⟨f, hf, rfl⟩
    exact hf

/-- Witness for C1 at a concrete input: input has columns `a` (kept), `z`
(dropped); schema is `[b, a]`, so `b` is padded with `0` and the output order
is the schema's. -/
theorem reconcile_total_deterministic_instance :
    (reconcile [("a", (5 : ℚ)), ("z", 3)] ["b", "a"]).map Prod.fst = ["b", "a"] ∧
    (reconcile [("a", (5 : ℚ)), ("z", 3)] ["b", "a"]).length = (["b", "a"] : List String).length :=
  ⟨(reconcile_total_deterministic [("a", 5), ("z", 3)] ["b", "a"] (by decide)).1,
   (reconcile_total_deterministic [("a", 5), ("z", 3)] ["b", "a"] (by decide)).2.1⟩

/-- Claim C2, evaluated on the code at the failing input: when the underlying
query raises (data source unreachable), `get_sales_data` catches the
exception and returns an *empty* table instead of failing with
`ExtractionError`; the calling `train` then degrades to the
insufficient-data error rather than aborting with an extraction error. This
is the source behavior the spec explicitly marks as corrected, so the claim
describes the intent and the code diverges from it. -/
theorem extraction_failure_degrades_to_empty {Row Agg P M D : Type}
    (clean : List Row → List Row) (aggregate : List Row → List Agg)
    (encode : List Agg → TrainData) (fit : String → TrainData → P)
    (evaluate : String → TrainData → M) (now : D) (s : ModelState P M D)
    (registry : Option (Artifact P M D)) (model_type : String) :
    get_sales_data clean (Except.error ()) = [] ∧
    prepare_training_data clean aggregate encode (Except.error ()) = none ∧
    (train fit evaluate now s registry
        (prepare_training_data clean aggregate encode (Except.error ())) model_type).1 =
      Sum.inr TrainError.insufficientData :=
  ⟨rfl, rfl, rfl⟩

/-- Claim C4: saving a model and loading the artifact back restores a state
whose pipeline, feature schema, metrics, trained_date and model_type are
exactly the saved ones, for any prior state of the loading holder. -/
theorem save_load_roundtrip {P M D : Type} (s t : ModelState P M D) :
    load (save s) t = (true, s) :=
  rfl

/-- Claim C5: whenever the prepared dataset is unavailable (`(None, None)`)
or has fewer than 10 rows, `train` returns the insufficient-data error and
installs nothing: the resulting state differs from the prior one only in the
`model_type` tag (set on line 49 before the check), and the persisted
artifact is untouched. -/
theorem train_insufficient_data_no_install {P M D : Type}
    (fit : String → TrainData → P) (evaluate : String → TrainData → M) (now : D)
    (s : ModelState P M D) (registry : Option (Artifact P M D))
    (data : Option TrainData) (model_type : String)
    (h : data = none ∨ ∃ d, data = some d ∧ d.nrows < 10) :
    train fit evaluate now s registry data model_type =
      (Sum.inr TrainError.insufficientData, { s with model_type := model_type }, registry) := by
  rcases h with rfl | ⟨d, rfl, hd⟩
  · rfl
  · simp [train, hd]

/-- Witness for C5 at a concrete input: 3 rows < 10. -/
theorem train_insufficient_data_no_install_instance :
    train (fun _ _ => (0 : Nat)) (fun _ _ => (0 : Nat)) (0 : Nat) priorState none
        (some { columns := ["a"], nrows := 3 }) "linear" =
      (Sum.inr TrainError.insufficientData, { priorState with model_type := "linear" }, none) :=
  train_insufficient_data_no_install _ _ _ _ _ _ _ (Or.inr ⟨_, rfl, by decide⟩)

/-- Claim C6 counterexample: loading the artifact `corruptArtifact`, whose
`features`/`metrics`/`trained_date` keys are missing, signals failure but
still overwrites `self.model` (the assignment on line 207 ran before the
`KeyError`), so the prior state is neither fully replaced nor left
untouched. -/
theorem load_missing_field_still_writes :
    (load corruptArtifact priorState).1 = false ∧
    (load corruptArtifact priorState).2 ≠ priorState ∧
    (load corruptArtifact priorState).2.model = some 9 ∧
    (load corruptArtifact priorState).2.features = priorState.features := by
  decide

/-- Claim C6 amended: if any of the four required keys is missing, `load`
signals failure, but it installs exactly the fields assigned before the
first missing key, in assignment order `model`, `features`, `metrics`,
`trained_date`; the remaining fields (and `model_type`) keep their prior
values. -/
theorem load_missing_field_behavior {P M D : Type} (a : Artifact P M D) (s : ModelState P M D)
    (h : a.model = none ∨ a.features = none ∨ a.metrics = none ∨ a.trained_date = none) :
    (load a s).1 = false ∧
    (a.model = none → (load a s).2 = s) ∧
    (∀ m, a.model = some m → a.features = none → (load a s).2 = { s with model := m }) ∧
    (∀ m f, a.model = some m → a.features = some f → a.metrics = none →
      (load a s).2 = { s with model := m, features := f }) ∧
    (∀ m f mt, a.model = some m → a.features = some f → a.metrics = some mt →
      a.trained_date = none →
      (load a s).2 = { s with model := m, features := f, metrics := mt }) := by
  cases hm : a.model with
  | none => simp [load, hm]
  | some m =>
    cases hf : a.features with
    | none => simp [load, hm, hf]
    | some f =>
      cases hmt : a.metrics with
      | none => simp [load, hm, hf, hmt]
      | some mt =>
        cases hd : a.trained_date with
        | none => simp [load, hm, hf, hmt, hd]
        | some d => rcases h with h | h | h | h <;> simp_all

/-- Witness for C6 amended at the concrete corrupt artifact: only `model` is
installed. -/
theorem load_missing_field_behavior_instance :
    (load corruptArtifact priorState).1 = false ∧
    (load corruptArtifact priorState).2 = { priorState with model := some 9 } :=
  ⟨(load_missing_field_behavior corruptArtifact priorState (Or.inr (Or.inl rfl))).1,
   (load_missing_field_behavior corruptArtifact priorState
      (Or.inr (Or.inl rfl))).2.2.1 (some 9) rfl rfl⟩

/-- Claim C3 counterexample: calling `train` with model_type "bogus" on a sufficient
dataset does fail, but the model-holder's state is *not* unchanged: the
`model_type` tag (line 49) and the feature schema (line 61) are overwritten
before the model-type check runs. -/
theorem train_unknown_type_mutates_state :
    (train (fun _ _ => (0 : Nat)) (fun _ _ => (0 : Nat)) (0 : Nat) priorState none
        (some sampleData) "bogus").1 = Sum.inr TrainError.unknownModelType ∧
    (train (fun _ _ => (0 : Nat)) (fun _ _ => (0 : Nat)) (0 : Nat) priorState none
        (some sampleData) "bogus").2.1 ≠ priorState ∧
    (train (fun _ _ => (0 : Nat)) (fun _ _ => (0 : Nat)) (0 : Nat) priorState none
        (some sampleData) "bogus").2.1.model_type = "bogus" ∧
    (train (fun _ _ => (0 : Nat)) (fun _ _ => (0 : Nat)) (0 : Nat) priorState none
        (some sampleData) "bogus").2.1.features = some ["a", "b"] := by
  decide

/-- Claim C3 amended: on a dataset that passes the size check, an unknown
model type makes `train` fail with the unknown-model-type error, with no
model replacement — the fitted pipeline, metrics, trained_date and the
persisted artifact are all unchanged — but the `model_type` tag is
overwritten with the bogus value and the feature schema is overwritten with
the new dataset's columns. -/
theorem train_unknown_type_keeps_model {P M D : Type}
    (fit : String → TrainData → P) (evaluate : String → TrainData → M) (now : D)
    (s : ModelState P M D) (registry : Option (Artifact P M D)) (d : TrainData)
    (model_type : String) (hn : ¬ d.nrows < 10)
    (hv : model_type ∉ valid_model_types) :
    train fit evaluate now s registry (some d) model_type =
      (Sum.inr TrainError.unknownModelType,
        { s with model_type := model_type, features := some d.columns }, registry) := by
  simp [train, hn, hv]

/-- Witness for C3 amended at the concrete bogus call. -/
theorem train_unknown_type_keeps_model_instance :
    train (fun _ _ => (0 : Nat)) (fun _ _ => (0 : Nat)) (0 : Nat) priorState none
        (some sampleData) "bogus" =
      (Sum.inr TrainError.unknownModelType,
        { priorState with model_type := "bogus", features := some ["a", "b"] }, none) :=
  train_unknown_type_keeps_model _ _ _ _ _ _ _ (by decide) (by decide)

/-- Claim C9 counterexample: a successful `train` run starting from an empty
registry leaves the registry non-empty — `train` performs the persistence
itself (line 124, `self.save()`), it is not left to the caller. -/
theorem train_writes_registry :
    (train (fun _ _ => (0 : Nat)) (fun _ _ => (0 : Nat)) (0 : Nat) priorState none
        (some sampleData) "linear").2.2 ≠ none := by
  decide

/-- Claim C9 amended: the method `train` itself persists the artifact on success —
the registry afterwards holds exactly the serialization of the final
in-memory state — and on every failure path (no data, too few rows, unknown
model type) the registry is unchanged, so a failed train leaves the
persisted artifact as it was. -/
theorem train_registry_policy {P M D : Type}
    (fit : String → TrainData → P) (evaluate : String → TrainData → M) (now : D)
    (s : ModelState P M D) (registry : Option (Artifact P M D)) (model_type : String) :
    ((train fit evaluate now s registry none model_type).2.2 = registry) ∧
    ∀ d : TrainData,
      (train fit evaluate now s registry (some d) model_type).2.2 =
        if ¬ d.nrows < 10 ∧ model_type ∈ valid_model_types
        then some (save (train fit evaluate now s registry (some d) model_type).2.1)
        else registry := by
  refine ⟨rfl, ?_⟩
  intro d
  by_cases hn : d.nrows < 10
  · simp [train, hn]
  · by_cases hv : model_type ∈ valid_model_types
    · simp [train, hn, hv]
    · simp [train, hn, hv]

theorem pyRound_nonneg {x : ℚ} (h : 0 ≤ x) : 0 ≤ pyRound x := by
  have h0 : 0 ≤ ⌊x⌋ := Int.floor_nonneg.2 h
  unfold pyRound
  dsimp only
  split_ifs <;> omega

/-- Claim C7: the returned predicted quantity is a non-negative integer (the
raw model output is clamped to 0 from below, then rounded), and the returned
confidence always lies in [0.5, 0.95], with default 0.8 when no r2_score is
available. -/
theorem prediction_bounds (raw : ℚ) (metrics : Option (List (String × ℚ))) :
    0 ≤ predicted_quantity raw ∧
    1 / 2 ≤ confidence metrics ∧
    confidence metrics ≤ 19 / 20 ∧
    confidence none = 8 / 10 := by
  refine ⟨pyRound_nonneg (le_max_left 0 raw), ?_, ?_, rfl⟩
  · unfold confidence
    rcases metrics with _ | d
    · norm_num
    · by_cases he : d.isEmpty <;> simp only [he, if_true, if_false]
      · norm_num
      · rcases d.lookup "r2_score" with _ | r
        · norm_num
        · exact le_max_left _ _
  · unfold confidence
    rcases metrics with _ | d
    · norm_num
    · by_cases he : d.isEmpty <;> simp only [he, if_true, if_false]
      · norm_num
      · rcases d.lookup "r2_score" with _ | r
        · norm_num
        · exact max_le (by norm_num) (min_le_left _ _)

theorem cc_ne_category_indicator (c : String) : "customer_country" ≠ "category_" ++ c := by
  intro h
  have h2 : ("customer_country".data).take 9 = "category_".data := by
    rw [h, String.data_append]
    exact List.take_left' (by decide)
  exact absurd h2 (by decide)

theorem cc_ne_supplier_indicator (u : String) : "customer_country" ≠ "supplier_" ++ u := by
  intro h
  have h2 : ("customer_country".data).take 9 = "supplier_".data := by
    rw [h, String.data_append]
    exact List.take_left' (by decide)
  exact absurd h2 (by decide)

/-- No training feature column is ever named `customer_country`: a schema
column is one of the five base numeric names or carries a `category_` /
`supplier_` name. -/
theorem mem_feature_cols_ne_cc {x : String} {cats sups : List String}
    (hx : x ∈ feature_cols cats sups) : x ≠ "customer_country" := by
  unfold feature_cols at hx
  rcases List.mem_append.1 hx with hb | hf
  · fin_cases hb <;> decide
  · have hx2 := (List.mem_filter.1 hf).1
    unfold encoded_columns at hx2
    rcases List.mem_append.1 hx2 with hx3 | hx4
    · rcases List.mem_append.1 hx3 with hx5 | hx6
      · fin_cases hx5 <;> decide
      · rcases List.mem_map.1 hx6 with ⟨c, _, rfl⟩
        exact fun h => cc_ne_category_indicator c h.symm
    · rcases List.mem_map.1 hx4 with ⟨u, _, rfl⟩
      exact fun h => cc_ne_supplier_indicator u h.symm

/-- Claim C10: the prediction is independent of the customer_id argument.
The only customer-derived feature, `customer_country = hash(country) % 10`,
can never occur in a trained feature schema (every schema column is a base
numeric name or a `category_`/`supplier_` indicator), so reconciliation
drops it, and two requests differing only in the customer (`cc₁` vs `cc₂`,
including present vs absent) reconcile to the same vector — hence the fitted
pipeline, applied to the reconciled vector, returns the same prediction. -/
theorem predict_independent_of_customer
    (pid y mo ap tr cid sid : ℚ) (cats sups : List String) (prodCat prodSup : String)
    (cc₁ cc₂ : Option ℚ) (schema cats' sups' : List String)
    (hs : ∀ n ∈ schema, n ∈ feature_cols cats' sups') :
    reconcile (prediction_features pid y mo ap tr cid sid cats sups prodCat prodSup cc₁)
        schema =
      reconcile (prediction_features pid y mo ap tr cid sid cats sups prodCat prodSup cc₂)
        schema ∧
    "customer_country" ∉ feature_cols cats' sups' := by
  refine ⟨?_, fun h => mem_feature_cols_ne_cc h rfl⟩
  rw [reconcile_eq_map, reconcile_eq_map]
  refine List.map_congr_left ?_
  intro f hf
  have hne : f ≠ "customer_country" := mem_feature_cols_ne_cc (hs f hf)
  have ht : ∀ cc : Option ℚ,
      (((cc.map (fun v => ("customer_country", v))).toList : FeatureVector).lookup f) = none := by
    intro cc
    cases cc with
    | none => rfl
    | some v =>
      have : (f == "customer_country") = false := by
        simpa [beq_eq_false_iff_ne] using hne
      simp [List.lookup_cons, this]
  unfold prediction_features
  rw [List.lookup_append, List.lookup_append, List.lookup_append,
      List.lookup_append, List.lookup_append, List.lookup_append,
      ht cc₁, ht cc₂]

/-- Witness for C10 at a concrete input: same request with and without a
resolvable customer, reconciled against the schema trained from categories
`{3}` and suppliers `{1}`. -/
theorem predict_independent_of_customer_instance :
    reconcile (prediction_features 5 2023 6 10 100 3 1 ["3"] ["1"] "3" "1" (some 7))
        (feature_cols ["3"] ["1"]) =
      reconcile (prediction_features 5 2023 6 10 100 3 1 ["3"] ["1"] "3" "1" none)
        (feature_cols ["3"] ["1"]) ∧
    "customer_country" ∉ feature_cols ["3"] ["1"] :=
  predict_independent_of_customer 5 2023 6 10 100 3 1 ["3"] ["1"] "3" "1" (some 7) none
    (feature_cols ["3"] ["1"]) ["3"] ["1"] (fun _ hn => hn)

end SmartSalesForecast
